import Mathlib

/-
Verification of the audio-to-risk inference pipeline of the hackshphere
repository. The embedding follows the Python sources in src/backend and
src/ml_training; opaque signal-processing library calls (librosa,
parselmouth) and fitted-model queries are inputs of the embedding, the
control flow and data assembly around them follow the source line by line.
-/

/-- Extended IEEE-double value as used throughout the embedding: a float is
either NaN, one of the two infinities, or a finite value modelled as a
rational number. -/
inductive EFloat where
  | nan : EFloat
  | posinf : EFloat
  | neginf : EFloat
  | finite : ℚ → EFloat
deriving DecidableEq

/-- Test used by the embedding for np.isnan-or-np.isinf style checks. -/
def EFloat.isFinite : EFloat → Bool
  | EFloat.finite _ => true
  | _ => false

/-- Largest finite IEEE double, np.finfo(float).max: numpy nan_to_num
replaces a positive infinity with this value by default. -/
def maxFloat : ℚ := (2 ^ 1024 : ℚ) - 2 ^ 971

/-- Embedding of numpy nan_to_num with its default arguments (as called in
extract_features of train_audio_features.py line 137 and app.py line 260):
NaN maps to 0.0, positive infinity to the largest finite double and negative
infinity to its negation; finite values pass through. -/
def nan_to_num_def : EFloat → EFloat
  | EFloat.nan => EFloat.finite 0
  | EFloat.posinf => EFloat.finite maxFloat
  | EFloat.neginf => EFloat.finite (-maxFloat)
  | EFloat.finite q => EFloat.finite q

/-- Embedding of np.nan_to_num(vec, nan=0.0, posinf=0.0, neginf=0.0) as
called in backend/model.py line 50: every non-finite value becomes 0.0. -/
def nanToZero : EFloat → EFloat
  | EFloat.finite q => EFloat.finite q
  | _ => EFloat.finite 0

/-- State of the process-wide numpy random generator, modelled as a stream
of uniform draws in the unit interval together with the position of the next
draw. Every embedded function that could touch the generator threads this
state; a function whose source performs no random call returns it
unchanged. -/
def RState : Type := (ℕ → ℚ) × ℕ

/-- Embedding of np.random.uniform(lo, hi): consumes one draw u from the
stream and returns lo + (hi - lo) * u. -/
def uniform (lo hi : ℚ) (r : RState) : ℚ × RState :=
  (lo + (hi - lo) * r.fst r.snd, (r.fst, r.snd + 1))

/-- Audio settings of ml_training/train_audio_features.py: SR = 16_000 and
MIN_SEC = 1.0, so the minimum trimmed length int(MIN_SEC * SR) is 16000
samples. -/
def minTrimmedSamples : ℕ := 16000

/-- Embedding of the stats helper of train_audio_features.py: the eight
aggregate keys it produces for a series called n, in insertion order. -/
def statKeys (n : String) : List String :=
  [n ++ "_mean", n ++ "_std", n ++ "_min", n ++ "_max",
   n ++ "_p25", n ++ "_p50", n ++ "_p75", n ++ "_qrange"]

/-- Feature keys of extract_core_features in insertion order. Band counts
are fixed by the call sites: spectral_contrast returns n_bands + 1 = 7 rows
with the librosa default n_bands = 6, chroma_stft returns 12 rows, mfcc is
called with n_mfcc = 20 (its delta and delta-delta series share the row
count), melspectrogram with n_mels = 30. -/
def coreNames : List String :=
  statKeys "rms" ++ statKeys "zcr" ++ statKeys "centroid" ++
  statKeys "bandwidth" ++ statKeys "rolloff" ++ statKeys "flatness" ++
  ((List.range 7).map (fun i => statKeys ("contrast_b" ++ toString i))).flatten ++
  ((List.range 12).map (fun i => statKeys ("chroma_b" ++ toString i))).flatten ++
  ((List.range 20).map (fun i =>
      statKeys ("mfcc_b" ++ toString i) ++ statKeys ("d_mfcc_b" ++ toString i) ++
      statKeys ("dd_mfcc_b" ++ toString i))).flatten ++
  ((List.range 30).map (fun i => statKeys ("logmel_b" ++ toString i))).flatten

/-- Feature keys of extract_praat_features of train_audio_features.py in
insertion order: the eight praat_f0 statistics, then jitter and shimmer. -/
def praatNames : List String :=
  statKeys "praat_f0" ++ ["praat_jitter_local", "praat_shimmer_local_db"]

/-- Signal-processing oracle for one audio file: the length of the waveform
after librosa.effects.trim, the aggregate value extract_core_features
computes for each core key, and the outcome of the parselmouth block of
extract_praat_features (none when that block raises and its except handler
returns the empty dict, otherwise the value for each praat key). The numeric
values come from opaque library transforms and are inputs of the embedding;
the assembly around them follows the source. -/
structure AudioEnv where
  trimmedLen : ℕ
  coreVal : String → EFloat
  praatOutcome : Option (String → EFloat)

/-- Embedding of extract_core_features: the insertion-ordered association
list the function builds with feats.update. -/
def extract_core_features (env : AudioEnv) : List (String × EFloat) :=
  coreNames.map (fun k => (k, env.coreVal k))

/-- Embedding of extract_praat_features of train_audio_features.py: returns
the empty dict when parselmouth is unavailable (HAVE_PRAAT false) and when
the praat block raises; otherwise the praat keys with their values. -/
def extract_praat_features (havePraat : Bool) (env : AudioEnv) :
    List (String × EFloat) :=
  if havePraat then
    match env.praatOutcome with
    | some pv => praatNames.map (fun k => (k, pv k))
    | none => []
  else []

/-- Error raised by extract_features: the ValueError thrown for audio whose
trimmed length is below the minimum (the InsufficientAudioError of the spec
taxonomy). -/
inductive ExtractErr where
  | insufficientAudio : ExtractErr
deriving DecidableEq

/-- Embedding of the feats dict of extract_features: core features inserted
first, then praat features (the key sets are disjoint, so the dict updates
amount to list append and insertion order is preserved). -/
def extract_feats_dict (havePraat : Bool) (env : AudioEnv) :
    List (String × EFloat) :=
  extract_core_features env ++ extract_praat_features havePraat env

/-- Embedding of extract_features of train_audio_features.py, the single-file
extractor the backend calls: fail when the trimmed waveform is shorter than
int(MIN_SEC * SR) samples, otherwise collect the feature dict values in
insertion order and apply np.nan_to_num with its default arguments. The
source performs no random call, so the generator state is returned
unchanged. -/
def extract_features (havePraat : Bool) (env : AudioEnv) (r : RState) :
    Except ExtractErr (List EFloat) × RState :=
  if env.trimmedLen < minTrimmedSamples then
    (Except.error ExtractErr.insufficientAudio, r)
  else
    (Except.ok ((extract_feats_dict havePraat env).map
        (fun kv => nan_to_num_def kv.snd)), r)

/-- Praat-derived values of extract_parselmouth_features of
backend/features.py, in the order the source computes them; oracle inputs of
the embedding (each parselmouth call returns an opaque float, possibly
NaN). -/
structure PraatVals where
  mean_pitch : EFloat
  max_pitch : EFloat
  min_pitch : EFloat
  jitter_local : EFloat
  jitter_abs : EFloat
  rap : EFloat
  ppq : EFloat
  ddp : EFloat
  shimmer_local : EFloat
  shimmer_db : EFloat
  apq3 : EFloat
  apq5 : EFloat
  apq : EFloat
  dda : EFloat
  hnr : EFloat

/-- Embedding of the line nhr = 1 / hnr if hnr != 0 else 0 with Python float
semantics: NaN compares unequal to 0 and inverts to NaN, an infinity inverts
to 0.0, a finite nonzero value inverts exactly, and 0 yields the integer
0. -/
def nhrOf : EFloat → EFloat
  | EFloat.nan => EFloat.nan
  | EFloat.posinf => EFloat.finite 0
  | EFloat.neginf => EFloat.finite 0
  | EFloat.finite q => if q = 0 then EFloat.finite 0 else EFloat.finite (1 / q)

/-- Error of extract_parselmouth_features: the RuntimeError its except branch
raises. -/
inductive PErr where
  | extractionFailed : PErr
deriving DecidableEq

/-- Embedding of extract_parselmouth_features of backend/features.py. The
praat measurements are oracle inputs (none models a raised parselmouth
exception, re-raised as RuntimeError before any random draw happens); the
six nonlinear features rpde, dfa, spread1, spread2, d2 and ppe are synthetic
placeholders drawn from np.random.uniform, so the result consumes and
depends on the random-generator state. -/
def extract_parselmouth_features (pv : Option PraatVals) (r : RState) :
    Except PErr (List EFloat) × RState :=
  match pv with
  | none => (Except.error PErr.extractionFailed, r)
  | some v =>
    let u1 := uniform (2/5) (3/5) r
    let u2 := uniform (3/5) (4/5) u1.snd
    let u3 := uniform (-6) (-4) u2.snd
    let u4 := uniform (1/5) (3/10) u3.snd
    let u5 := uniform 2 (13/5) u4.snd
    let u6 := uniform (3/20) (1/4) u5.snd
    (Except.ok [v.mean_pitch, v.max_pitch, v.min_pitch,
      v.jitter_local, v.jitter_abs, v.rap, v.ppq, v.ddp,
      v.shimmer_local, v.shimmer_db, v.apq3, v.apq5, v.apq, v.dda,
      nhrOf v.hnr, v.hnr,
      EFloat.finite u1.fst, EFloat.finite u2.fst, EFloat.finite u3.fst,
      EFloat.finite u4.fst, EFloat.finite u5.fst, EFloat.finite u6.fst],
     u6.snd)

/-- Addition on extended doubles with IEEE semantics: NaN propagates,
opposite infinities give NaN, an infinity absorbs finite values. -/
def EFloat.add : EFloat → EFloat → EFloat
  | EFloat.nan, _ => EFloat.nan
  | _, EFloat.nan => EFloat.nan
  | EFloat.posinf, EFloat.neginf => EFloat.nan
  | EFloat.neginf, EFloat.posinf => EFloat.nan
  | EFloat.posinf, _ => EFloat.posinf
  | _, EFloat.posinf => EFloat.posinf
  | EFloat.neginf, _ => EFloat.neginf
  | _, EFloat.neginf => EFloat.neginf
  | EFloat.finite a, EFloat.finite b => EFloat.finite (a + b)

/-- Division of an extended double by a natural count, as np.mean divides a
sum by the array length: non-finite values stay as they are, an empty count
yields NaN. -/
def EFloat.divCount : EFloat → ℕ → EFloat
  | EFloat.finite q, n => if n = 0 then EFloat.nan else EFloat.finite (q / n)
  | x, _ => x

/-- Embedding of np.mean over a one-dimensional array of doubles. -/
def npMean (l : List EFloat) : EFloat :=
  (l.foldl EFloat.add (EFloat.finite 0)).divCount l.length

/-- Python comparison score greater-than one half on a float: NaN compares
false, positive infinity true. -/
def EFloat.gtHalf : EFloat → Bool
  | EFloat.finite q => decide ((1 : ℚ) / 2 < q)
  | EFloat.posinf => true
  | _ => false

/-- Classifier loaded by backend/model.py, as an oracle: whether it exposes
predict_proba, the positive-class probability it returns, and the raw
predict output used otherwise. -/
structure ModelOracle where
  has_proba : Bool
  proba : List EFloat → ℚ
  pred : List EFloat → ℚ

/-- Error of predict_from_file of backend/model.py: every failure inside the
function body (conversion, extraction, scoring) is caught by the outer
except handler and re-raised as RuntimeError with the message Audio
processing failed. -/
inductive MErr where
  | audioProcessingFailed : MErr
deriving DecidableEq

/-- Process environment of backend/model.py for one call: whether the pydub
conversion to wav succeeds, the parselmouth oracle of the converted file,
and the module-global MODEL (none when the model file was absent at import
time). -/
structure MEnv where
  convert_ok : Bool
  praat : Option PraatVals
  model : Option ModelOracle

/-- Embedding of predict_from_file of backend/model.py. The feature vector
is the features.py extraction; any NaN or infinity in it is replaced by 0.0;
with the model absent the function does not fail but scores the request with
the heuristic np.mean of the feature vector, thresholded strictly at 0.5,
and returns that as a (label, probability, features) result. -/
def model_predict_from_file (env : MEnv) (r : RState) :
    Except MErr (String × EFloat × List EFloat) × RState :=
  if env.convert_ok then
    match extract_parselmouth_features env.praat r with
    | (Except.error _, r2) => (Except.error MErr.audioProcessingFailed, r2)
    | (Except.ok features, r2) =>
      let vec :=
        if features.any (fun x => !x.isFinite) then features.map nanToZero
        else features
      match env.model with
      | none =>
        let score := npMean vec
        let label := if score.gtHalf then "Parkinson" else "Healthy"
        (Except.ok (label, score, features), r2)
      | some m =>
        let prob : ℚ := if m.has_proba then m.proba vec else m.pred vec
        let label := if (1 : ℚ) / 2 ≤ prob then "Parkinson" else "Healthy"
        (Except.ok (label, EFloat.finite prob, features), r2)
  else (Except.error MErr.audioProcessingFailed, r)

/-- Fitted PCA bridge pipeline loaded by backend/app.py, as an oracle: the
step found under the name pca in named_steps (none when the pipeline has no
such step), and the calibrated positive-class probability of the whole
pipeline. -/
structure BridgePipeline where
  pcaStep : Option (List EFloat → List EFloat)
  predict_proba : List EFloat → ℚ

/-- Fusion bundle saved by fuse_with_pca_bridge.py and loaded by app.py: the
feature-name list recorded next to the meta model, and the meta model itself
as an oracle from the assembled row to the positive-class probability. -/
structure FusionBundle where
  feature_names : List String
  meta_model : List ℚ → ℚ

/-- Module-level state of backend/app.py for one request: the three loaded
artifacts (each none when loading failed), the optional scaler of the audio
bundle, whether parselmouth is available to the extractor, and the
signal-processing oracle of the uploaded file. -/
structure AppEnv where
  audio_model : Option (List EFloat → ℚ)
  audio_scaler : Option (List EFloat → List EFloat)
  pca_bridge : Option BridgePipeline
  fusion_bundle : Option FusionBundle
  havePraat : Bool
  audio : AudioEnv

/-- Errors of predict_from_file of backend/app.py: the HTTPException 500
raised when a model is missing, and the extraction ValueError that
propagates out of extract_features. -/
inductive AppErr where
  | modelsNotLoaded : AppErr
  | extractionFailed : AppErr
deriving DecidableEq

/-- Result tuple of predict_from_file of backend/app.py. -/
structure AppResult where
  label : String
  audio_full_proba : ℚ
  pca22_proba : ℚ
  fusion_proba : ℚ
  pca_features : List EFloat
  ai_summary : String
deriving DecidableEq

/-- Embedding of line 272 of backend/app.py: the meta-classifier input row
np.array([[p_pca22, p_audio]]) is assembled positionally, without consulting
any feature-name metadata. -/
def appAssembleRow (p_pca22 p_audio : ℚ) : List ℚ :=
  [p_pca22, p_audio]

/-- Embedding of line 275 of backend/app.py: the discrete label thresholds
the fusion probability at 0.5. -/
def fusionLabel (p_fusion : ℚ) : String :=
  if (1 : ℚ) / 2 ≤ p_fusion then "Parkinson" else "Healthy"

/-- Embedding of the qualitative summary banding of backend/app.py lines
278 to 283. -/
def aiSummaryOf (p_fusion : ℚ) : String :=
  if p_fusion < 2 / 5 then
    "Your voice appears stable and healthy with strong acoustic consistency."
  else if p_fusion < 13 / 20 then
    "Some mild irregularities detected in voice features — consider regular monitoring."
  else
    "AI detected significant voice variations possibly linked to Parkinson’s symptoms."

/-- Feature vector as predict_from_file of app.py sees it: the extractor
output passed through np.nan_to_num once more (line 260). -/
def app_feats (env : AppEnv) : List EFloat :=
  ((extract_feats_dict env.havePraat env.audio).map
      (fun kv => nan_to_num_def kv.snd)).map nan_to_num_def

/-- Embedding of predict_from_file of backend/app.py: abort with
HTTPException 500 when any of the three artifacts is missing; otherwise
extract features (propagating the extraction error), score the audio model
on the optionally scaled vector, take the named pca step of the bridge
pipeline or fabricate np.zeros((1, 22)) when there is none, score the bridge
pipeline on the full vector, assemble the positional fusion row, score the
meta model, threshold the label and attach the banded summary. -/
def app_predict_from_file (env : AppEnv) (r : RState) :
    Except AppErr AppResult × RState :=
  match env.audio_model, env.fusion_bundle, env.pca_bridge with
  | some am, some fb, some pb =>
    match extract_features env.havePraat env.audio r with
    | (Except.error _, r2) => (Except.error AppErr.extractionFailed, r2)
    | (Except.ok v, r2) =>
      let feats := v.map nan_to_num_def
      let x_audio := match env.audio_scaler with
        | some s => s feats
        | none => feats
      let p_audio := am x_audio
      let x_pca := match pb.pcaStep with
        | some st => st feats
        | none => List.replicate 22 (EFloat.finite 0)
      let p_pca22 := pb.predict_proba feats
      let f_input := appAssembleRow p_pca22 p_audio
      let p_fusion := fb.meta_model f_input
      (Except.ok
        { label := fusionLabel p_fusion
          audio_full_proba := p_audio
          pca22_proba := p_pca22
          fusion_proba := p_fusion
          pca_features := x_pca
          ai_summary := aiSummaryOf p_fusion }, r2)
  | _, _, _ => (Except.error AppErr.modelsNotLoaded, r)

/-- Feature-name list the training script fuse_with_pca_bridge.py (line 61)
records in the fusion bundle it saves: bridge probability first, full audio
probability second. -/
def trainedFusionFeatureNames : List String :=
  ["p_tab_like_from_pca22", "p_audio_full"]

/-- Modelled from the spec: row assembly driven by the feature-name ordering
recorded in the bundle metadata, the behaviour section 4.5 of the spec
prescribes for the aggregator. Each recorded name is mapped to the upstream
probability it names; this is the spec side of the refinement comparison
with appAssembleRow. -/
def specAssembleRow (names : List String) (p_bridge p_audio : ℚ) : List ℚ :=
  names.map (fun n =>
    if n = "p_tab_like_from_pca22" then p_bridge
    else if n = "p_audio_full" then p_audio
    else 0)

/-- Monotone squashing of a linear score into the open unit interval, at one
half exactly when the score is zero. -/
def logisticSquash (z : ℚ) : ℚ :=
  1 / 2 + z / (2 * (1 + |z|))

/-- Modelled from the spec: the trained fusion meta-classifier artifact
(fusion_meta_model_pca22.pkl) is produced offline and is not under src/;
following section 4.5 and Scenario D of the spec it is modelled as a
calibrated classifier on the row of the two upstream probabilities, with
positive weights on both, so that concordant high upstream probabilities
give a probability at or above one half and concordant low ones a
probability below it. -/
def specMetaModel : List ℚ → ℚ
  | p1 :: p2 :: _ => logisticSquash (5 * p1 + 5 * p2 - 5)
  | _ => logisticSquash (-5)

/-- Response of one requests.get call, as the Supabase download helper of
app.py reads it: the status code, whether the content-type header starts
with application/json, the signedURL field of the decoded body (none when
absent or not decodable), and whether the body bytes are nonempty. -/
structure HttpResp where
  status : ℕ
  content_type_json : Bool
  signedURL : Option String
  has_content : Bool

/-- Network oracle: the response of a GET on each URL, none when the request
raises. -/
structure NetOracle where
  get : String → Option HttpResp

/-- Environment variables read by try_download_model_from_supabase: none
models an unset variable; a set variable may still be the empty string,
which Python truthiness treats like absence. -/
structure StoreEnv where
  supabase_url : Option String
  supabase_key : Option String
  supabase_bucket : Option String

/-- Python truthiness of an optional environment string: false when unset or
empty. -/
def truthy : Option String → Bool
  | none => false
  | some s => !(s = "")

/-- Embedding of try_download_model_from_supabase of backend/app.py. The
second component is the trace of network requests attempted, in order: when
the credentials are not truthy the function returns None before any request;
otherwise it requests a signed URL, follows it when the response is a JSON
body carrying one, or accepts directly returned bytes, and returns the local
filename on success. -/
def try_download_model_from_supabase (env : StoreEnv) (net : NetOracle)
    (filename : String) : Option String × List String :=
  let bucket := match env.supabase_bucket with
    | some b => b
    | none => "audio-uploads"
  if truthy env.supabase_url && truthy env.supabase_key then
    let base := match env.supabase_url with
      | some u => u
      | none => ""
    let storage_url := base ++ "/storage/v1/object/sign/" ++ bucket ++ "/" ++ filename
    match net.get storage_url with
    | none => (none, [storage_url])
    | some resp =>
      if resp.status = 200 then
        let signed := if resp.content_type_json then resp.signedURL else none
        match signed with
        | some s =>
          match net.get s with
          | none => (none, [storage_url, s])
          | some dl =>
            if dl.status = 200 then (some filename, [storage_url, s])
            else (none, [storage_url, s])
        | none =>
          if resp.status = 200 && resp.has_content then (some filename, [storage_url])
          else (none, [storage_url])
      else (none, [storage_url])
  else (none, [])

mutual

/-- Python value as clean_json of backend/app.py traverses one: floats,
non-float primitives (int, str, bool, None), numpy arrays, lists, tuples and
string-keyed dicts. -/
inductive PyVal : Type where
  | float (x : EFloat)
  | int (n : ℤ)
  | str (s : String)
  | bool (b : Bool)
  | pynone
  | ndarray (l : PyList)
  | list (l : PyList)
  | tuple (l : PyList)
  | dict (d : PyDict)

/-- Sequence of Python values (the elements of a list, tuple or array). -/
inductive PyList : Type where
  | nil
  | cons (hd : PyVal) (tl : PyList)

/-- Insertion-ordered string-keyed Python dict. -/
inductive PyDict : Type where
  | nil
  | cons (key : String) (val : PyVal) (tl : PyDict)

end

mutual

/-- Embedding of clean_json of backend/app.py: arrays are converted to plain
lists (tolist) and cleaned elementwise, lists and tuples become cleaned
lists, dicts keep their keys with cleaned values, a NaN or infinite float
becomes 0.0, every other primitive is returned unchanged. -/
def clean_json : PyVal → PyVal
  | PyVal.ndarray l => PyVal.list (clean_list l)
  | PyVal.list l => PyVal.list (clean_list l)
  | PyVal.tuple l => PyVal.list (clean_list l)
  | PyVal.dict d => PyVal.dict (clean_dict d)
  | PyVal.float x =>
      if x.isFinite then PyVal.float x else PyVal.float (EFloat.finite 0)
  | PyVal.int n => PyVal.int n
  | PyVal.str s => PyVal.str s
  | PyVal.bool b => PyVal.bool b
  | PyVal.pynone => PyVal.pynone

/-- Elementwise clean_json over a sequence. -/
def clean_list : PyList → PyList
  | PyList.nil => PyList.nil
  | PyList.cons h t => PyList.cons (clean_json h) (clean_list t)

/-- Valuewise clean_json over a dict. -/
def clean_dict : PyDict → PyDict
  | PyDict.nil => PyDict.nil
  | PyDict.cons k v t => PyDict.cons k (clean_json v) (clean_dict t)

end

mutual

/-- Whether a nested Python value holds a NaN or infinite float anywhere. -/
def pyval_has_nonfinite : PyVal → Bool
  | PyVal.float x => !x.isFinite
  | PyVal.ndarray l => pylist_has_nonfinite l
  | PyVal.list l => pylist_has_nonfinite l
  | PyVal.tuple l => pylist_has_nonfinite l
  | PyVal.dict d => pydict_has_nonfinite d
  | _ => false

/-- Whether a sequence holds a non-finite float anywhere. -/
def pylist_has_nonfinite : PyList → Bool
  | PyList.nil => false
  | PyList.cons h t => pyval_has_nonfinite h || pylist_has_nonfinite t

/-- Whether a dict holds a non-finite float anywhere. -/
def pydict_has_nonfinite : PyDict → Bool
  | PyDict.nil => false
  | PyDict.cons _ v t => pyval_has_nonfinite v || pydict_has_nonfinite t

end

/-- Scenario E input of the spec: a dict with a NaN under key a and a list
holding 1.0 and positive infinity under key b. -/
def scenarioE : PyVal :=
  PyVal.dict (PyDict.cons "a" (PyVal.float EFloat.nan)
    (PyDict.cons "b" (PyVal.list (PyList.cons (PyVal.float (EFloat.finite 1))
      (PyList.cons (PyVal.float EFloat.posinf) PyList.nil))) PyDict.nil))

/-- Scenario E expected output: both non-finite floats replaced by 0.0. -/
def scenarioECleaned : PyVal :=
  PyVal.dict (PyDict.cons "a" (PyVal.float (EFloat.finite 0))
    (PyDict.cons "b" (PyVal.list (PyList.cons (PyVal.float (EFloat.finite 1))
      (PyList.cons (PyVal.float (EFloat.finite 0)) PyList.nil))) PyDict.nil))

/-- Deterministic random stream positioned at zero: every draw is 0. -/
def rZero : RState := (fun _ => 0, 0)

/-- Deterministic random stream whose every draw is one half. -/
def rHalf : RState := (fun _ => 1 / 2, 0)

/-- Praat oracle whose every measurement is the finite value 0. -/
def pvZero : PraatVals :=
  ⟨EFloat.finite 0, EFloat.finite 0, EFloat.finite 0, EFloat.finite 0,
   EFloat.finite 0, EFloat.finite 0, EFloat.finite 0, EFloat.finite 0,
   EFloat.finite 0, EFloat.finite 0, EFloat.finite 0, EFloat.finite 0,
   EFloat.finite 0, EFloat.finite 0, EFloat.finite 0⟩

/-- Praat oracle with pitch statistics near 100 Hz, zero jitter and shimmer
and unit harmonicity: a plausible healthy-voice measurement set. -/
def praatHigh : PraatVals :=
  ⟨EFloat.finite 100, EFloat.finite 100, EFloat.finite 100, EFloat.finite 0,
   EFloat.finite 0, EFloat.finite 0, EFloat.finite 0, EFloat.finite 0,
   EFloat.finite 0, EFloat.finite 0, EFloat.finite 0, EFloat.finite 0,
   EFloat.finite 0, EFloat.finite 0, EFloat.finite 1⟩

/-- Audio oracle of a clip trimmed to exactly the minimum length whose
aggregates are all 0 and whose praat block succeeds with all-zero values. -/
def envPraatOk : AudioEnv :=
  ⟨16000, fun _ => EFloat.finite 0, some (fun _ => EFloat.finite 0)⟩

/-- Audio oracle identical to envPraatOk except that the praat block raises
(its except handler returns the empty dict). -/
def envPraatRaised : AudioEnv :=
  ⟨16000, fun _ => EFloat.finite 0, none⟩

/-- Audio oracle of a clip trimmed to 4800 samples (a 0.3 second clip at
16 kHz, Scenario B of the spec). -/
def envShort : AudioEnv :=
  ⟨4800, fun _ => EFloat.finite 0, none⟩

/-- Audio oracle whose rms_mean aggregate is positive infinity and whose
other aggregates are 0. -/
def envInf : AudioEnv :=
  ⟨16000, fun k => if k = "rms_mean" then EFloat.posinf else EFloat.finite 0,
   none⟩

/-- Audio oracle whose rms_mean aggregate is NaN and whose other aggregates
are 0. -/
def envNanStat : AudioEnv :=
  ⟨16000, fun k => if k = "rms_mean" then EFloat.nan else EFloat.finite 0,
   none⟩

/-- Feature vector extract_features produces on envNanStat. -/
def vNanStat : List EFloat :=
  (extract_feats_dict true envNanStat).map (fun kv => nan_to_num_def kv.snd)

/-- Length of a successful extraction result. -/
def okLength (x : Except ExtractErr (List EFloat)) : Option ℕ :=
  x.toOption.map List.length

/-- First entry of a successful extraction result. -/
def okHead (x : Except ExtractErr (List EFloat)) : Option EFloat :=
  x.toOption.bind List.head?

/-- Entry of a successful features.py extraction at a given index. -/
def okNth (x : Except PErr (List EFloat)) (i : ℕ) : Option EFloat :=
  x.toOption.bind (fun l => l[i]?)

/-- Label of a model.py prediction result. -/
def mLabelOf : Except MErr (String × EFloat × List EFloat) → Option String
  | Except.ok t => some t.fst
  | Except.error _ => none

/-- Score of a model.py prediction result. -/
def mScoreOf : Except MErr (String × EFloat × List EFloat) → Option EFloat
  | Except.ok t => some t.snd.fst
  | Except.error _ => none

/-- Process state of backend/model.py with the model file absent (MODEL is
None), a successful wav conversion and the praatHigh measurements. -/
def mEnvNoModel : MEnv := ⟨true, some praatHigh, none⟩

/-- App state with none of the three artifacts loaded. -/
def appEnvNoModels : AppEnv :=
  ⟨none, none, none, none, false, envPraatRaised⟩

/-- Bridge pipeline without a step named pca. -/
def pbNoStep : BridgePipeline := ⟨none, fun _ => 3 / 10⟩

/-- Fusion bundle with the trained feature names and a constant meta
model. -/
def fbConst : FusionBundle := ⟨trainedFusionFeatureNames, fun _ => 7 / 10⟩

/-- App state with all three artifacts loaded, no scaler, parselmouth
unavailable, and a bridge pipeline lacking a pca step. -/
def appEnvC10 : AppEnv :=
  ⟨some (fun _ => 3 / 5), none, some pbNoStep, some fbConst, false,
   envPraatRaised⟩

/-- Store environment with the key set but the URL unset. -/
def envNoCreds : StoreEnv := ⟨none, some "key", some "bucket"⟩

/-- Network oracle on which every request raises. -/
def netNever : NetOracle := ⟨fun _ => none⟩

mutual

theorem clean_json_idem : ∀ v : PyVal, clean_json (clean_json v) = clean_json v
  | PyVal.float x => by cases x <;> rfl
  | PyVal.int n => rfl
  | PyVal.str s => rfl
  | PyVal.bool b => rfl
  | PyVal.pynone => rfl
  | PyVal.ndarray l => by simp [clean_json, clean_list_idem l]
  | PyVal.list l => by simp [clean_json, clean_list_idem l]
  | PyVal.tuple l => by simp [clean_json, clean_list_idem l]
  | PyVal.dict d => by simp [clean_json, clean_dict_idem d]

theorem clean_list_idem : ∀ l : PyList, clean_list (clean_list l) = clean_list l
  | PyList.nil => rfl
  | PyList.cons h t => by
      simp [clean_list, clean_json_idem h, clean_list_idem t]

theorem clean_dict_idem : ∀ d : PyDict, clean_dict (clean_dict d) = clean_dict d
  | PyDict.nil => rfl
  | PyDict.cons k v t => by
      simp [clean_dict, clean_json_idem v, clean_dict_idem t]

end

mutual

theorem clean_json_finite :
    ∀ v : PyVal, pyval_has_nonfinite (clean_json v) = false
  | PyVal.float x => by cases x <;> rfl
  | PyVal.int n => rfl
  | PyVal.str s => rfl
  | PyVal.bool b => rfl
  | PyVal.pynone => rfl
  | PyVal.ndarray l => by
      simp [clean_json, pyval_has_nonfinite, clean_list_finite l]
  | PyVal.list l => by
      simp [clean_json, pyval_has_nonfinite, clean_list_finite l]
  | PyVal.tuple l => by
      simp [clean_json, pyval_has_nonfinite, clean_list_finite l]
  | PyVal.dict d => by
      simp [clean_json, pyval_has_nonfinite, clean_dict_finite d]

theorem clean_list_finite :
    ∀ l : PyList, pylist_has_nonfinite (clean_list l) = false
  | PyList.nil => rfl
  | PyList.cons h t => by
      simp [clean_list, pylist_has_nonfinite, clean_json_finite h,
        clean_list_finite t]

theorem clean_dict_finite :
    ∀ d : PyDict, pydict_has_nonfinite (clean_dict d) = false
  | PyDict.nil => rfl
  | PyDict.cons k v t => by
      simp [clean_dict, pydict_has_nonfinite, clean_json_finite v,
        clean_dict_finite t]

end

/-- Claim C8: clean_json is idempotent, removes every NaN or infinite float
from a nested structure (replacing each by 0.0), leaves other primitives
untouched, and maps the Scenario E input to the Scenario E output. -/
theorem clean_json_idempotent_and_sanitizing :
    (∀ v : PyVal, clean_json (clean_json v) = clean_json v) ∧
    (∀ v : PyVal, pyval_has_nonfinite (clean_json v) = false) ∧
    (∀ q : ℚ, clean_json (PyVal.float (EFloat.finite q)) =
      PyVal.float (EFloat.finite q)) ∧
    (∀ n : ℤ, clean_json (PyVal.int n) = PyVal.int n) ∧
    (∀ s : String, clean_json (PyVal.str s) = PyVal.str s) ∧
    (∀ b : Bool, clean_json (PyVal.bool b) = PyVal.bool b) ∧
    clean_json (PyVal.float EFloat.nan) = PyVal.float (EFloat.finite 0) ∧
    clean_json (PyVal.float EFloat.posinf) = PyVal.float (EFloat.finite 0) ∧
    clean_json scenarioE = scenarioECleaned := by
  refine ⟨clean_json_idem, clean_json_finite, ?_, ?_, ?_, ?_, rfl, rfl, rfl⟩
  · intro q; simp [clean_json, EFloat.isFinite]
  · intro n; rfl
  · intro s; rfl
  · intro b; rfl

/-- Claim C6 (as stated): when the trimmed waveform is shorter than the
minimum of int(MIN_SEC * SR) = 16000 samples (one second at 16 kHz),
extract_features fails with the insufficient-audio error and returns no
partial vector. -/
theorem extract_short_audio_fails (hp : Bool) (env : AudioEnv) (r : RState)
    (h : env.trimmedLen < minTrimmedSamples) :
    (extract_features hp env r).fst =
      Except.error ExtractErr.insufficientAudio := by
  simp [extract_features, h]

/-- Witness for extract_short_audio_fails at the 0.3 second clip of
Scenario B. -/
theorem extract_short_audio_fails_witness :
    envShort.trimmedLen < minTrimmedSamples ∧
    (extract_features true envShort rZero).fst =
      Except.error ExtractErr.insufficientAudio :=
  ⟨by decide, extract_short_audio_fails true envShort rZero (by decide)⟩

/-- Claim C9 (as stated): when the Supabase credentials are not both truthy,
the download helper returns None for every requested filename without
attempting any network request. -/
theorem no_creds_no_network (env : StoreEnv) (net : NetOracle)
    (filename : String)
    (h : (truthy env.supabase_url && truthy env.supabase_key) = false) :
    try_download_model_from_supabase env net filename = (none, []) := by
  simp [try_download_model_from_supabase, h]

/-- Witness for no_creds_no_network: URL unset, key present, any oracle. -/
theorem no_creds_no_network_witness :
    (truthy envNoCreds.supabase_url && truthy envNoCreds.supabase_key)
        = false ∧
    try_download_model_from_supabase envNoCreds netNever
      "audio_parkinson_model_calibrated.pkl" = (none, []) :=
  ⟨by decide,
   no_creds_no_network envNoCreds netNever
     "audio_parkinson_model_calibrated.pkl" (by decide)⟩

/-- Counterexample to claim C3 as stated: for a bundle whose recorded
feature_names list the audio probability first, the row the app assembles is
not the row the metadata ordering prescribes — app.py builds the row
positionally and never reads feature_names. -/
theorem fusion_row_ignores_metadata_cex :
    appAssembleRow (1 / 4) (3 / 4) ≠
      specAssembleRow ["p_audio_full", "p_tab_like_from_pca22"]
        (1 / 4) (3 / 4) := by
  simp only [appAssembleRow, specAssembleRow, List.map_cons, List.map_nil]
  norm_num

/-- Claim C3 amended: the app assembles the fusion input row positionally as
[p_bridge, p_audio]; this coincides with the metadata-driven row exactly for
the feature-name ordering the training script records in the shipped
bundle. -/
theorem fusion_row_positional :
    (∀ p q : ℚ, appAssembleRow p q = [p, q]) ∧
    (∀ p q : ℚ,
      appAssembleRow p q = specAssembleRow trainedFusionFeatureNames p q) := by
  constructor <;> intro p q <;> rfl

/-- Claim C7: the discrete label is Parkinson exactly when the fusion
probability is at least one half and Healthy exactly when it is below; on
the modelled meta classifier the Scenario D inputs (0.9, 0.9) yield
Parkinson with fusion probability at least one half and (0.05, 0.05) yield
Healthy. -/
theorem fusion_threshold_and_scenario :
    (∀ p : ℚ, fusionLabel p = "Parkinson" ↔ 1 / 2 ≤ p) ∧
    (∀ p : ℚ, fusionLabel p = "Healthy" ↔ p < 1 / 2) ∧
    (1 / 2 ≤ specMetaModel (appAssembleRow (9 / 10) (9 / 10)) ∧
      fusionLabel (specMetaModel (appAssembleRow (9 / 10) (9 / 10)))
        = "Parkinson") ∧
    fusionLabel (specMetaModel (appAssembleRow (1 / 20) (1 / 20)))
      = "Healthy" := by
  have hval1 : specMetaModel (appAssembleRow (9 / 10) (9 / 10)) = 9 / 10 := by
    show logisticSquash (5 * (9 / 10) + 5 * (9 / 10) - 5) = 9 / 10
    unfold logisticSquash
    rw [show (5 * ((9 : ℚ) / 10) + 5 * (9 / 10) - 5) = 4 by norm_num,
      abs_of_nonneg (by norm_num : (0 : ℚ) ≤ 4)]
    norm_num
  have hval2 : specMetaModel (appAssembleRow (1 / 20) (1 / 20)) = 1 / 11 := by
    show logisticSquash (5 * (1 / 20) + 5 * (1 / 20) - 5) = 1 / 11
    unfold logisticSquash
    rw [show (5 * ((1 : ℚ) / 20) + 5 * (1 / 20) - 5) = -(9 / 2) by norm_num,
      abs_neg, abs_of_nonneg (by norm_num : (0 : ℚ) ≤ 9 / 2)]
    norm_num
  refine ⟨?_, ?_, ⟨?_, ?_⟩, ?_⟩
  · intro p
    unfold fusionLabel
    by_cases h : (1 : ℚ) / 2 ≤ p
    · rw [if_pos h]; exact ⟨fun _ => h, fun _ => rfl⟩
    · rw [if_neg h]
      exact ⟨fun hs => absurd hs (by decide), fun hle => absurd hle h⟩
  · intro p
    unfold fusionLabel
    by_cases h : (1 : ℚ) / 2 ≤ p
    · rw [if_pos h]
      exact ⟨fun hs => absurd hs (by decide), fun hlt => absurd hlt (not_lt.mpr h)⟩
    · rw [if_neg h]
      exact ⟨fun _ => not_le.mp h, fun _ => rfl⟩
  · rw [hval1]; norm_num
  · rw [hval1]
    unfold fusionLabel
    rw [if_pos (by norm_num : (1 : ℚ) / 2 ≤ 9 / 10)]
  · rw [hval2]
    unfold fusionLabel
    rw [if_neg (by norm_num : ¬ (1 : ℚ) / 2 ≤ 1 / 11)]

/-- Counterexample to claim C2 as stated: the features.py extractor is not a
function of the audio alone — at the same praat measurements, runs started
at two different random-generator states disagree at index 16 (the rpde
placeholder). -/
theorem extraction_randomized_cex :
    okNth (extract_parselmouth_features (some pvZero) rZero).fst 16 ≠
      okNth (extract_parselmouth_features (some pvZero) rHalf).fst 16 := by
  intro h
  rw [show okNth (extract_parselmouth_features (some pvZero) rZero).fst 16
        = some (EFloat.finite (2 / 5 + (3 / 5 - 2 / 5) * 0)) from rfl,
    show okNth (extract_parselmouth_features (some pvZero) rHalf).fst 16
        = some (EFloat.finite (2 / 5 + (3 / 5 - 2 / 5) * (1 / 2))) from rfl]
      at h
  injection h with h2
  injection h2 with h3
  norm_num at h3

/-- Claim C2 amended: the train_audio_features extractor is deterministic
(its result does not depend on the random-generator state) and omits the
voice-quality fields deterministically, returning the empty dict, when the
parselmouth estimator is unavailable and when it fails. -/
theorem train_extractor_deterministic :
    (∀ (hp : Bool) (env : AudioEnv) (r1 r2 : RState),
      (extract_features hp env r1).fst = (extract_features hp env r2).fst) ∧
    (∀ env : AudioEnv, extract_praat_features false env = []) ∧
    (∀ env : AudioEnv, env.praatOutcome = none →
      extract_praat_features true env = []) := by
  refine ⟨?_, ?_, ?_⟩
  · intro hp env r1 r2
    by_cases h : env.trimmedLen < minTrimmedSamples <;>
      simp [extract_features, h]
  · intro env; rfl
  · intro env h; simp [extract_praat_features, h]

set_option maxRecDepth 40000 in
/-- Counterexample to claim C4 as stated: with the same extractor
configuration (parselmouth available), two successful extractions return
vectors of different lengths — 930 entries on an input where the praat
block succeeds, 920 on an input where it raises — so the length is not
independent of the particular audio input. -/
theorem extract_length_depends_on_input_cex :
    okLength (extract_features true envPraatOk rZero).fst = some 930 ∧
    okLength (extract_features true envPraatRaised rZero).fst = some 920 ∧
    (930 : ℕ) ≠ 920 := by
  refine ⟨by decide, by decide, by decide⟩

/-- Projecting the first components out of a key-value list built from a
key list recovers the key list. -/
theorem map_fst_pair {α β : Type} (f : α → β) (l : List α) :
    l.map (Prod.fst ∘ fun k => (k, f k)) = l := by
  induction l with
  | nil => rfl
  | cons a t ih => simp [ih]

set_option maxRecDepth 40000 in
/-- Claim C4 amended: for a fixed configuration the key list and length of a
successful extraction are determined by whether the voice-quality block ran:
always the 920 core features in fixed order, followed by the 10 praat
features exactly when parselmouth is available and its block succeeded on
this input. -/
theorem extract_keys_and_length (hp : Bool) (env : AudioEnv) (r : RState)
    (h : minTrimmedSamples ≤ env.trimmedLen) :
    ((extract_feats_dict hp env).map Prod.fst
        = coreNames ++
          (if hp && env.praatOutcome.isSome then praatNames else [])) ∧
    (∃ v, (extract_features hp env r).fst = Except.ok v ∧
      v.length = if hp && env.praatOutcome.isSome then 930 else 920) := by
  have hcore : coreNames.length = 920 := by decide
  have hpn : praatNames.length = 10 := by decide
  have hkeys : (extract_feats_dict hp env).map Prod.fst
      = coreNames ++
        (if hp && env.praatOutcome.isSome then praatNames else []) := by
    unfold extract_feats_dict extract_core_features extract_praat_features
    cases hp with
    | false => simp [map_fst_pair]
    | true =>
      cases hpo : env.praatOutcome with
      | none => simp [map_fst_pair]
      | some pv => simp [map_fst_pair]
  have hlen : ((extract_feats_dict hp env).map
      (fun kv => nan_to_num_def kv.snd)).length
      = if hp && env.praatOutcome.isSome then 930 else 920 := by
    have hsame : ((extract_feats_dict hp env).map
        (fun kv => nan_to_num_def kv.snd)).length
        = ((extract_feats_dict hp env).map Prod.fst).length := by
      simp
    rw [hsame, hkeys]
    cases hb : (hp && env.praatOutcome.isSome) with
    | false => simp [hcore]
    | true => simp [List.length_append, hcore, hpn]
  have hnot : ¬ env.trimmedLen < minTrimmedSamples := Nat.not_lt.mpr h
  refine ⟨hkeys, ⟨_, ?_, hlen⟩⟩
  simp [extract_features, hnot]

/-- Witness for extract_keys_and_length on the praat-success input. -/
theorem extract_keys_and_length_witness :
    minTrimmedSamples ≤ envPraatOk.trimmedLen ∧
    (((extract_feats_dict true envPraatOk).map Prod.fst
        = coreNames ++
          (if true && envPraatOk.praatOutcome.isSome then praatNames
           else [])) ∧
      (∃ v, (extract_features true envPraatOk rZero).fst = Except.ok v ∧
        v.length = if true && envPraatOk.praatOutcome.isSome then 930
          else 920)) :=
  ⟨by decide, extract_keys_and_length true envPraatOk rZero (by decide)⟩

/-- Counterexample to claim C5 as stated: an infinite aggregate is not
replaced with zero — np.nan_to_num with default arguments maps positive
infinity to the largest finite double, a nonzero value. -/
theorem infinity_not_replaced_by_zero_cex :
    okHead (extract_features true envInf rZero).fst
      = some (EFloat.finite maxFloat) ∧
    maxFloat ≠ 0 := by
  refine ⟨rfl, by norm_num [maxFloat]⟩

/-- Claim C5 amended: a successful extraction contains no NaN and no
infinite entries — NaN entries are replaced with zero, while infinite
entries are replaced with the largest-magnitude finite double of matching
sign, not with zero. -/
theorem extract_replaces_nonfinite (hp : Bool) (env : AudioEnv) (r : RState)
    (v : List EFloat)
    (h : (extract_features hp env r).fst = Except.ok v) :
    (∀ x ∈ v, x.isFinite = true) ∧
    (∀ i : ℕ, ((extract_feats_dict hp env)[i]?).map Prod.snd
        = some EFloat.nan → v[i]? = some (EFloat.finite 0)) ∧
    (∀ i : ℕ, ((extract_feats_dict hp env)[i]?).map Prod.snd
        = some EFloat.posinf → v[i]? = some (EFloat.finite maxFloat)) ∧
    (∀ i : ℕ, ((extract_feats_dict hp env)[i]?).map Prod.snd
        = some EFloat.neginf → v[i]? = some (EFloat.finite (-maxFloat))) := by
  have hv : v = (extract_feats_dict hp env).map
      (fun kv => nan_to_num_def kv.snd) := by
    by_cases hlt : env.trimmedLen < minTrimmedSamples
    · simp [extract_features, hlt] at h
    · simp [extract_features, hlt] at h
      exact h.symm
  subst hv
  refine ⟨?_, ?_, ?_, ?_⟩
  · intro x hx
    obtain ⟨kv, hkv, rfl⟩ := List.mem_map.mp hx
    obtain ⟨k, y⟩ := kv
    cases y <;> rfl
  · intro i hi
    rw [List.getElem?_map]
    cases hd : (extract_feats_dict hp env)[i]? with
    | none => rw [hd] at hi; simp at hi
    | some kv =>
      rw [hd] at hi
      simp only [Option.map_some', Option.some.injEq] at hi
      simp only [Option.map_some', Option.some.injEq, hi]
      rfl
  · intro i hi
    rw [List.getElem?_map]
    cases hd : (extract_feats_dict hp env)[i]? with
    | none => rw [hd] at hi; simp at hi
    | some kv =>
      rw [hd] at hi
      simp only [Option.map_some', Option.some.injEq] at hi
      simp only [Option.map_some', Option.some.injEq, hi]
      rfl
  · intro i hi
    rw [List.getElem?_map]
    cases hd : (extract_feats_dict hp env)[i]? with
    | none => rw [hd] at hi; simp at hi
    | some kv =>
      rw [hd] at hi
      simp only [Option.map_some', Option.some.injEq] at hi
      simp only [Option.map_some', Option.some.injEq, hi]
      rfl

set_option maxRecDepth 40000 in
/-- Witness for extract_replaces_nonfinite: on the NaN-aggregate input the
extraction succeeds with vNanStat and its first entry is zero. -/
theorem extract_replaces_nonfinite_witness :
    (extract_features true envNanStat rZero).fst = Except.ok vNanStat ∧
    vNanStat[0]? = some (EFloat.finite 0) :=
  ⟨rfl,
   (extract_replaces_nonfinite true envNanStat rZero vNanStat rfl).2.1 0 rfl⟩

/-- Claim C10: with all three artifacts loaded and a bridge pipeline lacking
a step named pca, prediction succeeds, the reduced diagnostic features are a
fabricated all-zero vector of length 22, the bridge probability is still the
full pipeline probability on the extracted features, and the label
thresholds the fusion probability. -/
theorem missing_pca_step_returns_zeros (env : AppEnv) (am : List EFloat → ℚ)
    (fb : FusionBundle) (pb : BridgePipeline) (r : RState)
    (h1 : env.audio_model = some am) (h2 : env.fusion_bundle = some fb)
    (h3 : env.pca_bridge = some pb) (h4 : pb.pcaStep = none)
    (h5 : minTrimmedSamples ≤ env.audio.trimmedLen) :
    ∃ res, (app_predict_from_file env r).fst = Except.ok res ∧
      res.pca_features = List.replicate 22 (EFloat.finite 0) ∧
      res.pca22_proba = pb.predict_proba (app_feats env) ∧
      res.label = fusionLabel res.fusion_proba := by
  have hnot : ¬ env.audio.trimmedLen < minTrimmedSamples := Nat.not_lt.mpr h5
  have hex : extract_features env.havePraat env.audio r
      = (Except.ok ((extract_feats_dict env.havePraat env.audio).map
          (fun kv => nan_to_num_def kv.snd)), r) := by
    simp [extract_features, hnot]
  simp only [app_predict_from_file, h1, h2, h3, hex, h4]
  exact ⟨_, rfl, rfl, rfl, rfl⟩

/-- Witness for missing_pca_step_returns_zeros on a concrete app state. -/
theorem missing_pca_step_returns_zeros_witness :
    ∃ res, (app_predict_from_file appEnvC10 rZero).fst = Except.ok res ∧
      res.pca_features = List.replicate 22 (EFloat.finite 0) ∧
      res.pca22_proba = pbNoStep.predict_proba (app_feats appEnvC10) ∧
      res.label = fusionLabel res.fusion_proba :=
  missing_pca_step_returns_zeros appEnvC10 (fun _ => 3 / 5) fbConst pbNoStep
    rZero rfl rfl rfl rfl (by decide)

/-- Claim C1 evaluated at the failing input: with none of the artifacts
loaded, the app pipeline aborts with its distinguishable model-not-loaded
error; but the model.py variant with its MODEL absent still returns a
successful (label, probability, features) result, scoring the request with
the heuristic mean of the feature vector — here the confident label
Parkinson with score 5987/440. -/
theorem absent_model_still_predicts :
    (app_predict_from_file appEnvNoModels rZero).fst
      = Except.error AppErr.modelsNotLoaded ∧
    mLabelOf (model_predict_from_file mEnvNoModel rZero).fst
      = some "Parkinson" ∧
    mScoreOf (model_predict_from_file mEnvNoModel rZero).fst
      = some (EFloat.finite (5987 / 440)) := by
  refine ⟨rfl, ?_, ?_⟩ <;>
    norm_num [model_predict_from_file, mEnvNoModel, mLabelOf, mScoreOf,
      extract_parselmouth_features, praatHigh, uniform, rZero, nhrOf,
      npMean, EFloat.add, EFloat.divCount, EFloat.gtHalf, EFloat.isFinite,
      nanToZero, List.any, List.foldl]
